import Mathlib

/-!
Verification development for the phase-3 task-manager chatbot.

The Python source (agent/openai_agent.py, models/database_models.py) is
shallowly embedded below: strings are lists of characters, the SQL session
is an explicit `DB` state, `datetime.utcnow()` is an explicit `now : Nat`
clock argument, and a Python executor that may raise `ValueError` becomes a
function into `Except Str _`.  Theorems about the intent resolver, the
confirmation gate, the tool registry and the response formatter follow the
definitions.
-/

namespace Agent

/-- Python strings, embedded as lists of characters. -/
abbrev Str := List Char

/-- Shorthand turning a Lean string literal into the embedding's `Str`. -/
def str (s : String) : Str := s.data

/-- Python `str.lower()` (the inputs of interest are ASCII). -/
def lower (s : Str) : Str := s.map Char.toLower

/-- Python's substring test `needle in hay`. -/
def containsSub : Str → Str → Bool
  | [], needle => needle.isPrefixOf []
  | c :: t, needle => needle.isPrefixOf (c :: t) || containsSub t needle

/-- Python whitespace stripped by `str.strip()` (ASCII part). -/
def isPySpace (c : Char) : Bool :=
  c == ' ' || c == '\t' || c == '\n' || c == '\r' || c == '\x0b' || c == '\x0c'

/-- Python `str.strip()`. -/
def pyStrip (s : Str) : Str :=
  ((s.dropWhile isPySpace).reverse.dropWhile isPySpace).reverse

/-- The suffix of `l` after the first occurrence of `sep`; `none` when `sep`
does not occur.  Together with `upToNext` this models Python
`l.split(sep)[1]`. -/
def afterFirst (sep : Str) : Str → Option Str
  | [] => if sep.isPrefixOf [] then some [] else none
  | c :: rest =>
    if sep.isPrefixOf (c :: rest) then some (List.drop sep.length (c :: rest))
    else afterFirst sep rest

/-- The prefix of `l` up to (excluding) the next occurrence of `sep`; all of
`l` when `sep` does not occur. -/
def upToNext (sep : Str) : Str → Str
  | [] => []
  | c :: rest =>
    if sep.isPrefixOf (c :: rest) then []
    else c :: upToNext sep rest

/-- Python `l.split(sep)[1]`, defined when `sep` occurs in `l` (the source
guards the call with `sep in l`). -/
def splitSecond (sep l : Str) : Str :=
  upToNext sep ((afterFirst sep l).getD [])

/-- Decimal digits of a natural number (fuel-based so that the kernel can
evaluate it). -/
def natToStrCore : Nat → Nat → Str → Str
  | 0, _, acc => acc
  | fuel+1, n, acc =>
    let d := Char.ofNat (48 + n % 10)
    if n < 10 then d :: acc else natToStrCore fuel (n / 10) (d :: acc)

/-- Python `str(n)` for a non-negative int `n`. -/
def natToStr (n : Nat) : Str := natToStrCore (n+1) n []

/-- Python `str(x)` for an optional int (`None` prints as "None"). -/
def optNatStr : Option Nat → Str
  | none => str "None"
  | some n => natToStr n

/-- Python `str(x)` for an optional string (`None` prints as "None"). -/
def optStrStr : Option Str → Str
  | none => str "None"
  | some s => s

/-- Python `int(ds)` on a digit string. -/
def digitsToNat (ds : Str) : Nat :=
  ds.foldl (fun acc c => acc * 10 + (c.toNat - 48)) 0

/-- The regex search `re.search(r'#(\d+)', s)`: the value of the maximal
digit run after the first `#` that is followed by at least one digit. -/
def findHashNum : Str → Option Nat
  | [] => none
  | c :: rest =>
    if c == '#' then
      match rest.takeWhile Char.isDigit with
      | [] => findHashNum rest
      | ds => some (digitsToNat ds)
    else findHashNum rest

/-- The regex search `re.search(r'(pending|in_progress|completed)', s)`:
leftmost match, alternatives tried in order at each position. -/
def findStatusLit : Str → Option Str
  | [] => none
  | c :: rest =>
    if (str "pending").isPrefixOf (c :: rest) then some (str "pending")
    else if (str "in_progress").isPrefixOf (c :: rest) then some (str "in_progress")
    else if (str "completed").isPrefixOf (c :: rest) then some (str "completed")
    else findStatusLit rest

/-- Whether `re.search(r"ID (\d+)", s)` matches: some position starts with
"ID " followed by a digit. -/
def startsIdNum : Str → Bool
  | 'I' :: 'D' :: ' ' :: c :: _ => c.isDigit
  | _ => false

/-- The search itself, over every position of the string. -/
def hasIdNum : Str → Bool
  | [] => false
  | c :: rest => startsIdNum (c :: rest) || hasIdNum rest

/-- Python `", ".join`-style concatenation. -/
def joinSep (sep : Str) : List Str → Str
  | [] => []
  | [x] => x
  | x :: xs => x ++ sep ++ joinSep sep xs

/-- models/database_models.py: `TaskStatus`. -/
inductive TaskStatus
  | pending
  | in_progress
  | completed
  | cancelled
  deriving DecidableEq, Repr

/-- The enum's `.value` string. -/
def TaskStatus.value : TaskStatus → Str
  | .pending => str "pending"
  | .in_progress => str "in_progress"
  | .completed => str "completed"
  | .cancelled => str "cancelled"

/-- Python `TaskStatus(s)`: the enum constructor, raising `ValueError` on an
unknown literal. -/
def TaskStatus.ofValue (s : Str) : Except Str TaskStatus :=
  if s = str "pending" then .ok .pending
  else if s = str "in_progress" then .ok .in_progress
  else if s = str "completed" then .ok .completed
  else if s = str "cancelled" then .ok .cancelled
  else .error (str "'" ++ s ++ str "' is not a valid TaskStatus")

/-- models/database_models.py: `PriorityLevel`. -/
inductive PriorityLevel
  | low
  | medium
  | high
  | urgent
  deriving DecidableEq, Repr

/-- Python `PriorityLevel(s)`. -/
def PriorityLevel.ofValue (s : Str) : Except Str PriorityLevel :=
  if s = str "low" then .ok .low
  else if s = str "medium" then .ok .medium
  else if s = str "high" then .ok .high
  else if s = str "urgent" then .ok .urgent
  else .error (str "'" ++ s ++ str "' is not a valid PriorityLevel")

/-- models/database_models.py: `RoleType`. -/
inductive RoleType
  | user
  | assistant
  | system
  deriving DecidableEq, Repr

/-- Python `RoleType(s)`. -/
def RoleType.ofValue (s : Str) : Except Str RoleType :=
  if s = str "user" then .ok .user
  else if s = str "assistant" then .ok .assistant
  else if s = str "system" then .ok .system
  else .error (str "'" ++ s ++ str "' is not a valid RoleType")

/-- models/database_models.py: `Task` (timestamps abstracted to `Nat`). -/
structure Task where
  id : Nat
  title : Option Str
  description : Option Str
  status : TaskStatus
  priority : PriorityLevel
  created_at : Nat
  updated_at : Nat
  conversation_id : Option Nat
  deriving DecidableEq, Repr

/-- models/database_models.py: `Conversation`. -/
structure Conversation where
  id : Nat
  title : Option Str
  description : Option Str
  created_at : Nat
  updated_at : Nat
  deriving DecidableEq, Repr

/-- models/database_models.py: `Message`. -/
structure Message where
  id : Nat
  content : Option Str
  role : RoleType
  timestamp : Nat
  created_at : Nat
  updated_at : Nat
  conversation_id : Option Nat
  deriving DecidableEq, Repr

/-- The database session's visible state: the three tables. -/
structure DB where
  tasks : List Task
  conversations : List Conversation
  messages : List Message
  deriving DecidableEq, Repr

/-- A tool-call argument dict restricted to the keys the source ever reads;
an absent field is an absent key. -/
structure ToolArgs where
  id : Option Nat := none
  title : Option Str := none
  description : Option Str := none
  status : Option Str := none
  priority : Option Str := none
  conversation_id : Option Nat := none
  content : Option Str := none
  role : Option Str := none
  deriving DecidableEq, Repr

/-- The data payload an executor returns. -/
inductive ToolData
  | task (t : Task)
  | tasks (ts : List Task)
  | conversation (c : Conversation)
  | message (m : Message)
  deriving DecidableEq, Repr

/-- The dict `execute_tool` returns (`result`, `message`, `data`). -/
structure ToolOutput where
  result : Str
  message : Str
  data : Option ToolData
  deriving DecidableEq, Repr

/-- One entry of the result list of `execute_tool_calls` (the tool output
plus the `tool_name` key). -/
structure ExecResult where
  tool_name : Str
  result : Str
  message : Str
  data : Option ToolData
  deriving DecidableEq, Repr

/-- openai_agent.py: `ToolCall`. -/
structure ToolCall where
  name : Str
  arguments : ToolArgs
  deriving DecidableEq, Repr

/-- openai_agent.py: `AgentResponse`. -/
structure AgentResponse where
  message : Str
  tool_calls : List ToolCall
  needs_confirmation : Bool
  confirmation_message : Option Str
  deriving DecidableEq, Repr

/-- Python `session.get(Task, tid)` (`None` key finds nothing). -/
def dbGetTask (db : DB) : Option Nat → Option Task
  | none => none
  | some n => db.tasks.find? (fun t => t.id == n)

/-- Python `session.get(Conversation, cid)`. -/
def dbGetConversation (db : DB) : Option Nat → Option Conversation
  | none => none
  | some n => db.conversations.find? (fun c => c.id == n)

/-- The maximum of a list of ids; `none` on the empty table.  Models the
`order_by(id.desc()).limit(1).first()` query. -/
def maxIdOf : List Nat → Option Nat
  | [] => none
  | n :: ns =>
    match maxIdOf ns with
    | none => some n
    | some m => some (max n m)

/-- `1 if not result else result.id + 1`: the id assigned to a new row. -/
def nextId (l : List Nat) : Nat :=
  match maxIdOf l with
  | none => 1
  | some m => m + 1

/-- Replace the first task whose id is `tid` (the in-place mutation of the
object `session.get` returned). -/
def replaceFirstTask : List Task → Nat → Task → List Task
  | [], _, _ => []
  | t :: rest, tid, new => if t.id == tid then new :: rest else t :: replaceFirstTask rest tid new

/-- Remove the first task whose id is `tid` (`session.delete`). -/
def removeFirstTask : List Task → Nat → List Task
  | [], _ => []
  | t :: rest, tid => if t.id == tid then rest else t :: removeFirstTask rest tid

deriving instance DecidableEq for Except

namespace MCPTaskManager

/-- openai_agent.py: `MCPTaskManager._create_task`. -/
def create_task (args : ToolArgs) (now : Nat) (db : DB) : Except Str (ToolData × DB) := do
  let task_id := nextId (db.tasks.map Task.id)
  let st ← TaskStatus.ofValue ((args.status).getD (str "pending"))
  let pr ← PriorityLevel.ofValue ((args.priority).getD (str "medium"))
  let task : Task :=
    { id := task_id
      title := args.title
      description := some ((args.description).getD [])
      status := st
      priority := pr
      created_at := now
      updated_at := now
      conversation_id := args.conversation_id }
  .ok (.task task, { db with tasks := db.tasks ++ [task] })

/-- openai_agent.py: `MCPTaskManager._update_task`. -/
def update_task (args : ToolArgs) (_now : Nat) (db : DB) : Except Str (ToolData × DB) :=
  match dbGetTask db args.id with
  | none => .error (str "Task with ID " ++ optNatStr args.id ++ str " not found")
  | some task =>
    match (match args.status with
           | some s => TaskStatus.ofValue s
           | none => .ok task.status : Except Str TaskStatus) with
    | .error e => .error e
    | .ok status =>
      match (match args.priority with
             | some s => PriorityLevel.ofValue s
             | none => .ok task.priority : Except Str PriorityLevel) with
      | .error e => .error e
      | .ok priority =>
        let task2 : Task :=
          { task with
            title := (match args.title with | some s => some s | none => task.title)
            description := (match args.description with | some s => some s | none => task.description)
            status := status
            priority := priority
            conversation_id :=
              (match args.conversation_id with | some n => some n | none => task.conversation_id) }
        .ok (.task task2, { db with tasks := replaceFirstTask db.tasks task.id task2 })

/-- openai_agent.py: `MCPTaskManager._delete_task`. -/
def delete_task (args : ToolArgs) (_now : Nat) (db : DB) : Except Str (ToolData × DB) :=
  match dbGetTask db args.id with
  | none => .error (str "Task with ID " ++ optNatStr args.id ++ str " not found")
  | some task => .ok (.task task, { db with tasks := removeFirstTask db.tasks task.id })

/-- openai_agent.py: `MCPTaskManager._get_task`. -/
def get_task (args : ToolArgs) (_now : Nat) (db : DB) : Except Str (ToolData × DB) :=
  match dbGetTask db args.id with
  | none => .error (str "Task with ID " ++ optNatStr args.id ++ str " not found")
  | some task => .ok (.task task, db)

/-- openai_agent.py: `MCPTaskManager._list_tasks` (an empty-string filter is
falsy in Python and filters nothing). -/
def list_tasks (args : ToolArgs) (_now : Nat) (db : DB) : Except Str (ToolData × DB) :=
  match args.status with
  | none => .ok (.tasks db.tasks, db)
  | some s =>
    if s.isEmpty then .ok (.tasks db.tasks, db)
    else
      match TaskStatus.ofValue s with
      | .error e => .error e
      | .ok st => .ok (.tasks (db.tasks.filter (fun t => t.status == st)), db)

/-- openai_agent.py: `MCPTaskManager._create_conversation`. -/
def create_conversation (args : ToolArgs) (now : Nat) (db : DB) : Except Str (ToolData × DB) :=
  let conv_id := nextId (db.conversations.map Conversation.id)
  let conversation : Conversation :=
    { id := conv_id
      title := args.title
      description := some ((args.description).getD [])
      created_at := now
      updated_at := now }
  .ok (.conversation conversation, { db with conversations := db.conversations ++ [conversation] })

/-- openai_agent.py: `MCPTaskManager._add_message`. -/
def add_message (args : ToolArgs) (now : Nat) (db : DB) : Except Str (ToolData × DB) :=
  let msg_id := nextId (db.messages.map Message.id)
  match dbGetConversation db args.conversation_id with
  | none => .error (str "Conversation with ID " ++ optNatStr args.conversation_id ++ str " not found")
  | some _ =>
    match RoleType.ofValue ((args.role).getD (str "user")) with
    | .error e => .error e
    | .ok role =>
      let message : Message :=
        { id := msg_id
          content := args.content
          role := role
          timestamp := now
          created_at := now
          updated_at := now
          conversation_id := args.conversation_id }
      .ok (.message message, { db with messages := db.messages ++ [message] })

/-- openai_agent.py: `MCPTaskManager._get_conversation`. -/
def get_conversation (args : ToolArgs) (_now : Nat) (db : DB) : Except Str (ToolData × DB) :=
  match dbGetConversation db args.id with
  | none => .error (str "Conversation with ID " ++ optNatStr args.id ++ str " not found")
  | some conversation => .ok (.conversation conversation, db)

/-- The keys of the `available_tools` dict. -/
def availableToolNames : List Str :=
  [str "create_task", str "update_task", str "delete_task", str "get_task",
   str "list_tasks", str "create_conversation", str "add_message", str "get_conversation"]

/-- The dict lookup `self.available_tools[tool_name]`, applied to the
arguments: `none` when the name is unregistered. -/
def runTool (name : Str) (args : ToolArgs) (now : Nat) (db : DB) :
    Option (Except Str (ToolData × DB)) :=
  if name = str "create_task" then some (create_task args now db)
  else if name = str "update_task" then some (update_task args now db)
  else if name = str "delete_task" then some (delete_task args now db)
  else if name = str "get_task" then some (get_task args now db)
  else if name = str "list_tasks" then some (list_tasks args now db)
  else if name = str "create_conversation" then some (create_conversation args now db)
  else if name = str "add_message" then some (add_message args now db)
  else if name = str "get_conversation" then some (get_conversation args now db)
  else none

/-- openai_agent.py: `MCPTaskManager.execute_tool` — the registry boundary
that converts an unregistered name to NOT_FOUND and a raised executor
exception to ERROR. -/
def execute_tool (name : Str) (args : ToolArgs) (now : Nat) (db : DB) : ToolOutput × DB :=
  match runTool name args now db with
  | none =>
    ({ result := str "not_found"
       message := str "Tool '" ++ name ++ str "' not found"
       data := none }, db)
  | some (.error e) =>
    ({ result := str "error", message := e, data := none }, db)
  | some (.ok (d, db2)) =>
    ({ result := str "success", message := str "Tool executed successfully", data := some d }, db2)

end MCPTaskManager

namespace OpenAIAgent

/-- openai_agent.py: `OpenAIAgent._needs_confirmation`
(`tool_name in ["delete_task", "update_task"]`). -/
def needs_confirmation (tool_name : Str) : Bool :=
  tool_name == str "delete_task" || tool_name == str "update_task"

/-- The items of an argument dict, rendered as `k=v` pairs; the order is the
insertion order of the dicts the resolver constructs. -/
def argsItems (args : ToolArgs) : List Str :=
  (match args.title with | some s => [str "title=" ++ s] | none => []) ++
  (match args.description with | some s => [str "description=" ++ s] | none => []) ++
  (match args.status with | some s => [str "status=" ++ s] | none => []) ++
  (match args.priority with | some s => [str "priority=" ++ s] | none => []) ++
  (match args.conversation_id with | some n => [str "conversation_id=" ++ natToStr n] | none => []) ++
  (match args.content with | some s => [str "content=" ++ s] | none => []) ++
  (match args.role with | some s => [str "role=" ++ s] | none => [])

/-- openai_agent.py: `OpenAIAgent._format_confirmation_message`. -/
def format_confirmation_message (tool_call : ToolCall) : Str :=
  if tool_call.name = str "delete_task" then
    str "I'm about to delete task #" ++ optNatStr tool_call.arguments.id ++ str ". Is that OK?"
  else if tool_call.name = str "update_task" then
    str "I'm about to update task #" ++ optNatStr tool_call.arguments.id ++ str " with " ++
      joinSep (str ", ") (argsItems tool_call.arguments) ++ str ". Is that OK?"
  else
    str "I'm about to execute '" ++ tool_call.name ++ str "' with arguments \x7b" ++
      joinSep (str ", ") (argsItems tool_call.arguments) ++ str "\x7d. Please confirm."

/-- openai_agent.py: `OpenAIAgent.process_request` — the keyword/regex
intent resolver, an ordered chain of elif cases over the lower-cased
input. -/
def process_request (user_input : Str) : AgentResponse :=
  let l := lower user_input
  let tool_calls : List ToolCall :=
    if containsSub l (str "create") && (containsSub l (str "task") || containsSub l (str "new")) then
      let title : Str :=
        if containsSub l (str "to") then pyStrip (splitSecond (str "to") l)
        else if containsSub l (str "for") then pyStrip (splitSecond (str "for") l)
        else str "New task"
      [⟨str "create_task", { title := some title, status := some (str "pending") }⟩]
    else if containsSub l (str "update") && containsSub l (str "task") then
      match findHashNum l with
      | some task_id =>
        let status := (findStatusLit l).getD (str "in_progress")
        [⟨str "update_task", { id := some task_id, status := some status }⟩]
      | none => []
    else if containsSub l (str "delete") && containsSub l (str "task") then
      match findHashNum l with
      | some task_id => [⟨str "delete_task", { id := some task_id }⟩]
      | none => []
    else if containsSub l (str "show") || containsSub l (str "list") || containsSub l (str "all") then
      let status : Option Str :=
        if containsSub l (str "pending") then some (str "pending")
        else if containsSub l (str "in progress") || containsSub l (str "in_progress") then
          some (str "in_progress")
        else if containsSub l (str "completed") then some (str "completed")
        else none
      [⟨str "list_tasks", { status := status }⟩]
    else if (containsSub l (str "get") || containsSub l (str "show") || containsSub l (str "what"))
        && containsSub l (str "task") then
      match findHashNum l with
      | some task_id => [⟨str "get_task", { id := some task_id }⟩]
      | none => []
    else []
  let needs := tool_calls.any (fun tc => needs_confirmation tc.name)
  let confirmation_message : Option Str :=
    if needs && !tool_calls.isEmpty then
      (tool_calls.find? (fun tc => needs_confirmation tc.name)).map format_confirmation_message
    else none
  { message :=
      if tool_calls.isEmpty then str "I'm not sure how to help with that."
      else str "Processing your request..."
    tool_calls := tool_calls
    needs_confirmation := needs
    confirmation_message := confirmation_message }

/-- openai_agent.py: `OpenAIAgent.execute_tool_calls_with_session` (and the
identical `execute_tool_calls`): runs each call through the registry unless
it is gated and `confirm_execution` is still set, in which case a
`pending_confirmation` placeholder is recorded. -/
def execute_tool_calls_with_session :
    List ToolCall → Bool → Nat → DB → List ExecResult × DB
  | [], _, _, db => ([], db)
  | tc :: rest, confirm_execution, now, db =>
    if confirm_execution && needs_confirmation tc.name then
      let r : ExecResult :=
        { tool_name := tc.name
          result := str "pending_confirmation"
          message := str "Action '" ++ tc.name ++ str "' requires confirmation"
          data := none }
      let (rs, db2) := execute_tool_calls_with_session rest confirm_execution now db
      (r :: rs, db2)
    else
      let (out, db1) := MCPTaskManager.execute_tool tc.name tc.arguments now db
      let r : ExecResult :=
        { tool_name := tc.name, result := out.result, message := out.message, data := out.data }
      let (rs, db2) := execute_tool_calls_with_session rest confirm_execution now db1
      (r :: rs, db2)

/-- openai_agent.py: `OpenAIAgent._suggest_alternatives`. -/
def suggest_alternatives (message : Str) : Str :=
  if hasIdNum message then
    str "Would you like me to list all tasks so you can find the right one?"
  else
    str "Would you like me to help you with something else?"

/-- Rendering of one bullet of the `list_tasks` reply. -/
def taskBullet (t : Task) : Str :=
  str "- " ++ natToStr t.id ++ str ": " ++ optStrStr t.title ++ str " (" ++ t.status.value ++ str ")"

/-- The sentence `_format_results` appends for one result entry.  On a
SUCCESS entry the source assumes the payload shape its registry produces;
an ill-shaped payload (unreachable from the registry) falls back to the raw
message. -/
def format_one (r : ExecResult) : Str :=
  if r.result = str "success" then
    if r.tool_name = str "list_tasks" then
      match r.data with
      | some (.tasks ts) =>
        if ts.isEmpty then str "No tasks found."
        else str "Here are the tasks:\n" ++ joinSep (str "\n") (ts.map taskBullet)
      | _ => str "No tasks found."
    else if r.tool_name = str "get_task" then
      match r.data with
      | some (.task t) =>
        str "Task #" ++ natToStr t.id ++ str ": " ++ optStrStr t.title ++
          str " (" ++ t.status.value ++ str ")"
      | _ => r.message
    else if r.tool_name = str "create_task" || r.tool_name = str "update_task" then
      match r.data with
      | some (.task t) => str "Task updated successfully: " ++ optStrStr t.title
      | _ => r.message
    else if r.tool_name = str "delete_task" then
      match r.data with
      | some (.task t) => str "Task deleted: " ++ optStrStr t.title
      | _ => r.message
    else if r.tool_name = str "create_conversation" then
      match r.data with
      | some (.conversation c) => str "Conversation created: " ++ optStrStr c.title
      | _ => r.message
    else if r.tool_name = str "get_conversation" then
      match r.data with
      | some (.conversation c) => str "Conversation: " ++ optStrStr c.title
      | _ => r.message
    else if r.tool_name = str "add_message" then
      match r.data with
      | some (.message m) => str "Message added to conversation #" ++ optNatStr m.conversation_id
      | _ => r.message
    else r.message
  else if r.result = str "not_found" then
    if containsSub r.tool_name (str "task") && containsSub (lower r.message) (str "not found") then
      str "I couldn't find that task. " ++ suggest_alternatives r.message
    else str "Sorry, " ++ r.message
  else if r.result = str "error" then
    str "Sorry, I encountered an error: " ++ r.message
  else r.message

/-- openai_agent.py: `OpenAIAgent._format_results`. -/
def format_results (results : List ExecResult) : Str :=
  let messages := results.map format_one
  if messages.isEmpty then str "Operation completed." else joinSep (str " ") messages

end OpenAIAgent

/-! Concrete fixtures used by witness theorems. -/

/-- A concrete persisted task used by witnesses. -/
def taskW : Task :=
  { id := 1, title := some (str "write report"), description := some (str "notes")
    status := .pending, priority := .low, created_at := 3, updated_at := 4
    conversation_id := none }

/-- A one-task database used by witnesses. -/
def dbW : DB := { tasks := [taskW], conversations := [], messages := [] }

/-- The empty database. -/
def dbEmpty : DB := { tasks := [], conversations := [], messages := [] }

/-! String lemmas about the embedded Python primitives. -/

theorem isPrefixOf_append_self (m b : Str) : m.isPrefixOf (m ++ b) = true := by
  induction m with
  | nil => simp [List.isPrefixOf]
  | cons c m ih => simp [List.isPrefixOf, ih]

theorem containsSub_of_isPrefixOf (hay m : Str) (h : m.isPrefixOf hay = true) :
    containsSub hay m = true := by
  cases hay with
  | nil => exact h
  | cons c t => simp [containsSub, h]

theorem containsSub_mid (a m b : Str) : containsSub (a ++ (m ++ b)) m = true := by
  induction a with
  | nil => exact containsSub_of_isPrefixOf (m ++ b) m (isPrefixOf_append_self m b)
  | cons c a ih => simp [containsSub, ih]

theorem findStatusLit_mem (s x : Str) (h : findStatusLit s = some x) :
    x = str "pending" ∨ x = str "in_progress" ∨ x = str "completed" := by
  induction s with
  | nil => simp [findStatusLit] at h
  | cons c rest ih =>
    unfold findStatusLit at h
    split at h
    · exact Or.inl (Option.some.inj h).symm
    · split at h
      · exact Or.inr (Or.inl (Option.some.inj h).symm)
      · split at h
        · exact Or.inr (Or.inr (Option.some.inj h).symm)
        · exact ih h

/-! Claim C1.  The spec's scenario says that "What is task #999?" with no
task 999 renders an apology plus the exact suggestion "Would you like me to
list all tasks so you can find the right one?".  The resolver does produce
a `get_task` call, but the registry converts the executor's "not found"
`ValueError` into an ERROR result (NOT_FOUND is reserved for unregistered
tool names), and the formatter's suggestion branch fires only on NOT_FOUND,
so the pipeline renders the generic ERROR apology instead. -/

/-- C1: evaluating the full pipeline at the input "What is task #999?" on a
database with no task 999 renders "Sorry, I encountered an error: Task with
ID 999 not found" and not the suggestion the spec (and the source's own
test_agent.py) promise. -/
theorem C1_get_task_not_found_reply :
    OpenAIAgent.format_results
      (OpenAIAgent.execute_tool_calls_with_session
        (OpenAIAgent.process_request (str "What is task #999?")).tool_calls
        false 0 dbEmpty).1
      = str "Sorry, I encountered an error: Task with ID 999 not found" ∧
    containsSub
      (OpenAIAgent.format_results
        (OpenAIAgent.execute_tool_calls_with_session
          (OpenAIAgent.process_request (str "What is task #999?")).tool_calls
          false 0 dbEmpty).1)
      (str "Would you like me to list all tasks so you can find the right one?") = false ∧
    (OpenAIAgent.process_request (str "What is task #999?")).tool_calls
      = [⟨str "get_task", { id := some 999 }⟩] := by
  decide

/-! Claim C2.  The resolver's cases are an ordered elif chain, so an input
containing "delete task #N" that also contains "create" (or "update") never
reaches the delete branch; and the extracted id is the first `#<digits>`
occurrence anywhere in the text, not necessarily the N of the phrase. -/

/-- C2 counterexample: "create delete task #1" contains the substring
"delete task #1", yet the resolver emits a `create_task` call, not
`delete_task`. -/
theorem C2_counterexample :
    containsSub (str "create delete task #1") (str "delete task #1") = true ∧
    (OpenAIAgent.process_request (str "create delete task #1")).tool_calls
      = [⟨str "create_task", { title := some (str "New task"), status := some (str "pending") }⟩] ∧
    ((OpenAIAgent.process_request (str "create delete task #1")).tool_calls.map ToolCall.name
      ≠ [str "delete_task"]) := by
  decide

/-- C2 amended: for every input whose lowercasing contains "delete" and
"task" but neither "create" nor "update", and in which a `#<digits>`
pattern occurs, the resolver produces exactly one tool call, it is
`delete_task`, its id is the number of the first `#<digits>` occurrence
(in particular N whenever "delete task #N" carries that first occurrence),
and the gate reports confirmation required. -/
theorem C2_delete_resolution (t : Str) (n : Nat)
    (hdel : containsSub (lower t) (str "delete") = true)
    (htask : containsSub (lower t) (str "task") = true)
    (hcreate : containsSub (lower t) (str "create") = false)
    (hupdate : containsSub (lower t) (str "update") = false)
    (hid : findHashNum (lower t) = some n) :
    (OpenAIAgent.process_request t).tool_calls = [⟨str "delete_task", { id := some n }⟩] ∧
    (OpenAIAgent.process_request t).needs_confirmation = true ∧
    OpenAIAgent.needs_confirmation (str "delete_task") = true := by
  unfold OpenAIAgent.process_request
  simp [hdel, htask, hcreate, hupdate, hid, OpenAIAgent.needs_confirmation]

/-- C2 witness: the amended theorem applied at "Please delete task #5". -/
theorem C2_delete_resolution_witness :
    (OpenAIAgent.process_request (str "Please delete task #5")).tool_calls
      = [⟨str "delete_task", { id := some 5 }⟩] ∧
    (OpenAIAgent.process_request (str "Please delete task #5")).needs_confirmation = true := by
  have h := C2_delete_resolution (str "Please delete task #5") 5
    (by decide) (by decide) (by decide) (by decide) (by decide)
  exact ⟨h.1, h.2.1⟩

/-! Claim C6.  The update branch's status regex is
`(pending|in_progress|completed)`: the model's fourth status literal
"cancelled" is not recognized, and (by elif order) a text that also
contains "create" never reaches the update branch. -/

/-- C6 counterexample: "update task #1 cancelled" contains "update", "task"
and the status literal "cancelled", yet the resolver falls back to the
default status "in_progress" instead of "cancelled". -/
theorem C6_counterexample :
    (OpenAIAgent.process_request (str "update task #1 cancelled")).tool_calls
      = [⟨str "update_task", { id := some 1, status := some (str "in_progress") }⟩] ∧
    str "in_progress" ≠ str "cancelled" := by
  decide

/-- C6 amended: for every input whose lowercasing contains "update" and
"task" but not "create": with a `#<digits>` id present the resolver emits
exactly one `update_task` call carrying that id and the first substring
matching one of (pending, in_progress, completed) — "cancelled" is not
recognized — defaulting to "in_progress" when none occurs; with no id it
silently emits no tool call. -/
theorem C6_update_resolution (t : Str)
    (hupd : containsSub (lower t) (str "update") = true)
    (htask : containsSub (lower t) (str "task") = true)
    (hcreate : containsSub (lower t) (str "create") = false) :
    (∀ n, findHashNum (lower t) = some n →
      (OpenAIAgent.process_request t).tool_calls
        = [⟨str "update_task",
            { id := some n, status := some ((findStatusLit (lower t)).getD (str "in_progress")) }⟩] ∧
      (OpenAIAgent.process_request t).needs_confirmation = true) ∧
    (findHashNum (lower t) = none → (OpenAIAgent.process_request t).tool_calls = []) ∧
    (∀ x, findStatusLit (lower t) = some x →
      x = str "pending" ∨ x = str "in_progress" ∨ x = str "completed") := by
  refine ⟨?_, ?_, fun x hx => findStatusLit_mem (lower t) x hx⟩
  · intro n hn
    unfold OpenAIAgent.process_request
    simp [hupd, htask, hcreate, hn, OpenAIAgent.needs_confirmation]
  · intro hn
    unfold OpenAIAgent.process_request
    simp [hupd, htask, hcreate, hn]

/-- C6 witness: the amended theorem applied at "update task #3 completed". -/
theorem C6_update_resolution_witness :
    (OpenAIAgent.process_request (str "update task #3 completed")).tool_calls
      = [⟨str "update_task", { id := some 3, status := some (str "completed") }⟩] ∧
    (OpenAIAgent.process_request (str "update task #3 completed")).needs_confirmation = true := by
  have h := (C6_update_resolution (str "update task #3 completed")
    (by decide) (by decide) (by decide)).1 3 (by decide)
  have hs : (findStatusLit (lower (str "update task #3 completed"))).getD (str "in_progress")
      = str "completed" := by decide
  rw [hs] at h
  exact h

/-! Claim C7: the "Delete task #2" scenario. -/

/-- A gated, unconfirmed call is skipped: one gated tool call executed with
the confirmation bypass unset produces only the `pending_confirmation`
placeholder and leaves the state untouched. -/
theorem exec_gated_single (tc : ToolCall) (now : Nat) (db : DB)
    (h : OpenAIAgent.needs_confirmation tc.name = true) :
    OpenAIAgent.execute_tool_calls_with_session [tc] true now db =
      ([{ tool_name := tc.name
          result := str "pending_confirmation"
          message := str "Action '" ++ tc.name ++ str "' requires confirmation"
          data := none }], db) := by
  simp [OpenAIAgent.execute_tool_calls_with_session, h]

/-- C7: for "Delete task #2" confirmation is required, the prompt is exactly
"I'm about to delete task #2. Is that OK?", and executing the resolved
calls with the bypass unset records a `pending_confirmation` placeholder
and leaves every persisted task (indeed the whole database) unchanged. -/
theorem C7_delete_confirmation_frame (now : Nat) (db : DB) :
    (OpenAIAgent.process_request (str "Delete task #2")).needs_confirmation = true ∧
    (OpenAIAgent.process_request (str "Delete task #2")).confirmation_message
      = some (str "I'm about to delete task #2. Is that OK?") ∧
    OpenAIAgent.execute_tool_calls_with_session
        (OpenAIAgent.process_request (str "Delete task #2")).tool_calls true now db =
      ([{ tool_name := str "delete_task"
          result := str "pending_confirmation"
          message := str "Action 'delete_task' requires confirmation"
          data := none }], db) := by
  refine ⟨by decide, by decide, ?_⟩
  have ht : (OpenAIAgent.process_request (str "Delete task #2")).tool_calls
      = [⟨str "delete_task", { id := some 2 }⟩] := by decide
  rw [ht, exec_gated_single _ now db (by decide)]
  have hm : str "Action '" ++ str "delete_task" ++ str "' requires confirmation"
      = str "Action 'delete_task' requires confirmation" := by decide
  rw [hm]

/-! Claim C3.  Python's `split("to")[1]` is the segment between the first
and the second occurrence of "to", not everything after the first
occurrence; and the extraction happens on the lower-cased text and is
followed by `.strip()`. -/

/-- C3 counterexample: for "create task to go to gym" the code's title is
"go" (between the two "to"s, stripped), not the substring after the first
"to". -/
theorem C3_counterexample :
    (OpenAIAgent.process_request (str "create task to go to gym")).tool_calls
      = [⟨str "create_task", { title := some (str "go"), status := some (str "pending") }⟩] ∧
    str "go" ≠ str " go to gym" ∧ str "go" ≠ str "go to gym" := by
  decide

/-- If "to" occurs nowhere in `a ++ "t"`, the first occurrence of "to" in
`a ++ "to" ++ b` is the displayed one, and `afterFirst` returns `b`. -/
theorem afterFirst_to (a b : Str)
    (hfirst : containsSub (a ++ str "t") (str "to") = false) :
    afterFirst (str "to") (a ++ (str "to" ++ b)) = some b := by
  have hto : str "to" = ['t', 'o'] := by decide
  have ht1 : str "t" = ['t'] := by decide
  rw [hto] at hfirst ⊢
  rw [ht1] at hfirst
  induction a with
  | nil =>
    simp [afterFirst, List.isPrefixOf]
  | cons c a ih =>
    have hrest : containsSub (a ++ ['t']) ['t', 'o'] = false := by
      have h2 := hfirst
      rw [List.cons_append] at h2
      simp only [containsSub, Bool.or_eq_false_iff] at h2
      exact h2.2
    have hpre : List.isPrefixOf ['t', 'o'] (c :: (a ++ (['t', 'o'] ++ b))) = false := by
      cases a with
      | nil =>
        simp [List.isPrefixOf]
      | cons d a2 =>
        by_contra hne
        rw [Bool.not_eq_false] at hne
        simp only [List.cons_append, List.isPrefixOf, Bool.and_eq_true, beq_iff_eq] at hne
        obtain ⟨h1, h2, _⟩ := hne
        have hcon : containsSub (c :: (d :: (a2 ++ ['t']))) ['t', 'o'] = true := by
          apply containsSub_of_isPrefixOf
          simp only [List.isPrefixOf, Bool.and_eq_true, beq_iff_eq]
          exact ⟨h1, h2, trivial⟩
        rw [List.cons_append, List.cons_append] at hfirst
        rw [hcon] at hfirst
        exact absurd hfirst (by decide)
    rw [List.cons_append]
    simp only [afterFirst, hpre]
    simpa using ih hrest

/-- C3 amended: on input whose lowercasing contains "create" and "task",
the title of the emitted `create_task` call is the lower-cased segment
strictly between the first occurrence of "to" and the next one (to the end
when "to" occurs only once), stripped of surrounding whitespace; when
neither "to" nor "for" occurs the title defaults to "New task"; status is
always "pending". -/
theorem C3_create_title (t a b : Str)
    (hc : containsSub (lower t) (str "create") = true)
    (htask : containsSub (lower t) (str "task") = true)
    (hl : lower t = a ++ (str "to" ++ b))
    (hfirst : containsSub (a ++ str "t") (str "to") = false) :
    (OpenAIAgent.process_request t).tool_calls
      = [⟨str "create_task",
          { title := some (pyStrip (upToNext (str "to") b)), status := some (str "pending") }⟩] ∧
    (∀ t2, containsSub (lower t2) (str "create") = true →
      containsSub (lower t2) (str "task") = true →
      containsSub (lower t2) (str "to") = false →
      containsSub (lower t2) (str "for") = false →
      (OpenAIAgent.process_request t2).tool_calls
        = [⟨str "create_task",
            { title := some (str "New task"), status := some (str "pending") }⟩]) := by
  constructor
  · have hto : containsSub (lower t) (str "to") = true := by
      rw [hl]; exact containsSub_mid a (str "to") b
    have hsplit : splitSecond (str "to") (lower t) = upToNext (str "to") b := by
      unfold splitSecond
      rw [hl, afterFirst_to a b hfirst]
      rfl
    unfold OpenAIAgent.process_request
    simp [hc, htask, hto, hsplit]
  · intro t2 hc2 ht2 hto2 hfor2
    unfold OpenAIAgent.process_request
    simp [hc2, ht2, hto2, hfor2]

/-- C3 witness: the amended theorem applied at "Create task to buy milk"
(one occurrence of "to": title is everything after it, stripped). -/
theorem C3_create_title_witness :
    (OpenAIAgent.process_request (str "Create task to buy milk")).tool_calls
      = [⟨str "create_task",
          { title := some (str "buy milk"), status := some (str "pending") }⟩] := by
  have h := (C3_create_title (str "Create task to buy milk") (str "create task ") (str " buy milk")
    (by decide) (by decide) (by decide) (by decide)).1
  have hv : pyStrip (upToNext (str "to") (str " buy milk")) = str "buy milk" := by decide
  rw [hv] at h
  exact h

/-! Registry infrastructure lemmas shared by the remaining claims. -/

theorem containsSub_sandwich (a m b : Str) : containsSub (a ++ m ++ b) m = true := by
  rw [List.append_assoc]
  exact containsSub_mid a m b

theorem runTool_create_task (args : ToolArgs) (now : Nat) (db : DB) :
    MCPTaskManager.runTool (str "create_task") args now db
      = some (MCPTaskManager.create_task args now db) := by
  unfold MCPTaskManager.runTool
  rw [if_pos rfl]

theorem runTool_update_task (args : ToolArgs) (now : Nat) (db : DB) :
    MCPTaskManager.runTool (str "update_task") args now db
      = some (MCPTaskManager.update_task args now db) := by
  unfold MCPTaskManager.runTool
  rw [if_neg (by decide), if_pos rfl]

theorem runTool_delete_task (args : ToolArgs) (now : Nat) (db : DB) :
    MCPTaskManager.runTool (str "delete_task") args now db
      = some (MCPTaskManager.delete_task args now db) := by
  unfold MCPTaskManager.runTool
  rw [if_neg (by decide), if_neg (by decide), if_pos rfl]

theorem runTool_get_task (args : ToolArgs) (now : Nat) (db : DB) :
    MCPTaskManager.runTool (str "get_task") args now db
      = some (MCPTaskManager.get_task args now db) := by
  unfold MCPTaskManager.runTool
  rw [if_neg (by decide), if_neg (by decide), if_neg (by decide), if_pos rfl]

theorem runTool_list_tasks (args : ToolArgs) (now : Nat) (db : DB) :
    MCPTaskManager.runTool (str "list_tasks") args now db
      = some (MCPTaskManager.list_tasks args now db) := by
  unfold MCPTaskManager.runTool
  rw [if_neg (by decide), if_neg (by decide), if_neg (by decide), if_neg (by decide), if_pos rfl]

theorem runTool_create_conversation (args : ToolArgs) (now : Nat) (db : DB) :
    MCPTaskManager.runTool (str "create_conversation") args now db
      = some (MCPTaskManager.create_conversation args now db) := by
  unfold MCPTaskManager.runTool
  rw [if_neg (by decide), if_neg (by decide), if_neg (by decide), if_neg (by decide),
    if_neg (by decide), if_pos rfl]

theorem runTool_add_message (args : ToolArgs) (now : Nat) (db : DB) :
    MCPTaskManager.runTool (str "add_message") args now db
      = some (MCPTaskManager.add_message args now db) := by
  unfold MCPTaskManager.runTool
  rw [if_neg (by decide), if_neg (by decide), if_neg (by decide), if_neg (by decide),
    if_neg (by decide), if_neg (by decide), if_pos rfl]

theorem runTool_get_conversation (args : ToolArgs) (now : Nat) (db : DB) :
    MCPTaskManager.runTool (str "get_conversation") args now db
      = some (MCPTaskManager.get_conversation args now db) := by
  unfold MCPTaskManager.runTool
  rw [if_neg (by decide), if_neg (by decide), if_neg (by decide), if_neg (by decide),
    if_neg (by decide), if_neg (by decide), if_neg (by decide), if_pos rfl]

theorem execute_tool_none_out (name : Str) (args : ToolArgs) (now : Nat) (db : DB)
    (h : MCPTaskManager.runTool name args now db = none) :
    MCPTaskManager.execute_tool name args now db
      = ({ result := str "not_found"
           message := str "Tool '" ++ name ++ str "' not found"
           data := none }, db) := by
  unfold MCPTaskManager.execute_tool
  rw [h]

theorem execute_tool_error_out (name : Str) (args : ToolArgs) (now : Nat) (db : DB) (e : Str)
    (h : MCPTaskManager.runTool name args now db = some (.error e)) :
    MCPTaskManager.execute_tool name args now db
      = ({ result := str "error", message := e, data := none }, db) := by
  unfold MCPTaskManager.execute_tool
  rw [h]

theorem execute_tool_ok_out (name : Str) (args : ToolArgs) (now : Nat) (db : DB)
    (d : ToolData) (db2 : DB)
    (h : MCPTaskManager.runTool name args now db = some (.ok (d, db2))) :
    MCPTaskManager.execute_tool name args now db
      = ({ result := str "success", message := str "Tool executed successfully",
           data := some d }, db2) := by
  unfold MCPTaskManager.execute_tool
  rw [h]

theorem maxIdOf_le (l : List Nat) (x : Nat) (hx : x ∈ l) :
    ∃ m, maxIdOf l = some m ∧ x ≤ m := by
  induction l with
  | nil => simp at hx
  | cons n ns ih =>
    rcases List.mem_cons.mp hx with h1 | h1
    · subst h1
      cases hm : maxIdOf ns with
      | none => exact ⟨x, by simp [maxIdOf, hm], le_refl x⟩
      | some m => exact ⟨max x m, by simp [maxIdOf, hm], le_max_left x m⟩
    · obtain ⟨m, hm, hxm⟩ := ih h1
      refine ⟨max n m, ?_, le_trans hxm (le_max_right n m)⟩
      simp [maxIdOf, hm]

theorem lt_nextId (l : List Nat) (x : Nat) (hx : x ∈ l) : x < nextId l := by
  obtain ⟨m, hm, hxm⟩ := maxIdOf_le l x hx
  unfold nextId
  rw [hm]
  show x < m + 1
  omega

theorem find?_append_new (ts : List Task) (t : Task)
    (hlt : ∀ u ∈ ts, u.id < t.id) :
    (ts ++ [t]).find? (fun u => u.id == t.id) = some t := by
  induction ts with
  | nil => simp [List.find?]
  | cons u rest ih =>
    have hu : (u.id == t.id) = false := by
      have hne : u.id ≠ t.id := Nat.ne_of_lt (hlt u (List.mem_cons_self u rest))
      simp [hne]
    rw [List.cons_append]
    rw [List.find?]
    rw [hu]
    exact ih (fun v hv => hlt v (List.mem_cons_of_mem _ hv))

theorem mem_replaceFirstTask (ts : List Task) (tid : Nat) (new u : Task)
    (h : u ∈ replaceFirstTask ts tid new) : u ∈ ts ∨ u = new := by
  induction ts with
  | nil => simp [replaceFirstTask] at h
  | cons t rest ih =>
    unfold replaceFirstTask at h
    split at h
    · rcases List.mem_cons.mp h with h1 | h1
      · exact Or.inr h1
      · exact Or.inl (List.mem_cons_of_mem _ h1)
    · rcases List.mem_cons.mp h with h1 | h1
      · exact Or.inl (h1 ▸ List.mem_cons_self _ _)
      · rcases ih h1 with h2 | h2
        · exact Or.inl (List.mem_cons_of_mem _ h2)
        · exact Or.inr h2

theorem mem_removeFirstTask (ts : List Task) (tid : Nat) (u : Task)
    (h : u ∈ removeFirstTask ts tid) : u ∈ ts := by
  induction ts with
  | nil => simp [removeFirstTask] at h
  | cons t rest ih =>
    unfold removeFirstTask at h
    split at h
    · exact List.mem_cons_of_mem _ h
    · rcases List.mem_cons.mp h with h1 | h1
      · exact h1 ▸ List.mem_cons_self _ _
      · exact List.mem_cons_of_mem _ (ih h1)

/-! Shapes of each executor's successful result. -/

theorem create_task_ok (args : ToolArgs) (now : Nat) (db : DB) (d : ToolData) (db2 : DB)
    (h : MCPTaskManager.create_task args now db = .ok (d, db2)) :
    ∃ tsk : Task, d = .task tsk ∧ db2 = { db with tasks := db.tasks ++ [tsk] } ∧
      tsk.id = nextId (db.tasks.map Task.id) ∧ tsk.created_at = now ∧ tsk.updated_at = now := by
  unfold MCPTaskManager.create_task at h
  cases hst : TaskStatus.ofValue ((args.status).getD (str "pending")) with
  | error e =>
    rw [hst] at h
    simp [Bind.bind, Except.bind] at h
  | ok st =>
    rw [hst] at h
    cases hpr : PriorityLevel.ofValue ((args.priority).getD (str "medium")) with
    | error e =>
      rw [hpr] at h
      simp [Bind.bind, Except.bind] at h
    | ok pr =>
      rw [hpr] at h
      simp only [Bind.bind, Except.bind, Except.ok.injEq, Prod.mk.injEq] at h
      obtain ⟨hd, hdb⟩ := h
      exact ⟨_, hd.symm, hdb.symm, rfl, rfl, rfl⟩

theorem update_task_ok (args : ToolArgs) (now : Nat) (db : DB) (d : ToolData) (db2 : DB)
    (h : MCPTaskManager.update_task args now db = .ok (d, db2)) :
    ∃ task task2 : Task, dbGetTask db args.id = some task ∧ d = .task task2 ∧
      db2 = { db with tasks := replaceFirstTask db.tasks task.id task2 } ∧
      task2.id = task.id ∧ task2.created_at = task.created_at ∧
      task2.updated_at = task.updated_at ∧
      task2.title = (match args.title with | some s => some s | none => task.title) ∧
      task2.description
        = (match args.description with | some s => some s | none => task.description) ∧
      (match args.status with
       | some s => TaskStatus.ofValue s
       | none => .ok task.status : Except Str TaskStatus) = .ok task2.status ∧
      (match args.priority with
       | some s => PriorityLevel.ofValue s
       | none => .ok task.priority : Except Str PriorityLevel) = .ok task2.priority ∧
      task2.conversation_id
        = (match args.conversation_id with | some m => some m | none => task.conversation_id) := by
  unfold MCPTaskManager.update_task at h
  split at h
  · exact absurd h (by simp)
  · rename_i task heq
    split at h
    · exact absurd h (by simp)
    · rename_i status hst
      split at h
      · exact absurd h (by simp)
      · rename_i priority hpr
        simp only [Except.ok.injEq, Prod.mk.injEq] at h
        obtain ⟨hd, hdb⟩ := h
        exact ⟨task, _, heq, hd.symm, hdb.symm, rfl, rfl, rfl, rfl, rfl,
          by rw [hst], by rw [hpr], rfl⟩

theorem delete_task_ok (args : ToolArgs) (now : Nat) (db : DB) (d : ToolData) (db2 : DB)
    (h : MCPTaskManager.delete_task args now db = .ok (d, db2)) :
    ∃ task : Task, dbGetTask db args.id = some task ∧ d = .task task ∧
      db2 = { db with tasks := removeFirstTask db.tasks task.id } := by
  unfold MCPTaskManager.delete_task at h
  split at h
  · exact absurd h (by simp)
  · rename_i task heq
    simp only [Except.ok.injEq, Prod.mk.injEq] at h
    obtain ⟨hd, hdb⟩ := h
    exact ⟨task, heq, hd.symm, hdb.symm⟩

theorem get_task_ok (args : ToolArgs) (now : Nat) (db : DB) (d : ToolData) (db2 : DB)
    (h : MCPTaskManager.get_task args now db = .ok (d, db2)) : db2 = db := by
  unfold MCPTaskManager.get_task at h
  split at h
  · exact absurd h (by simp)
  · simp only [Except.ok.injEq, Prod.mk.injEq] at h
    exact h.2.symm

theorem list_tasks_ok (args : ToolArgs) (now : Nat) (db : DB) (d : ToolData) (db2 : DB)
    (h : MCPTaskManager.list_tasks args now db = .ok (d, db2)) : db2 = db := by
  unfold MCPTaskManager.list_tasks at h
  split at h
  · simp only [Except.ok.injEq, Prod.mk.injEq] at h
    exact h.2.symm
  · split at h
    · simp only [Except.ok.injEq, Prod.mk.injEq] at h
      exact h.2.symm
    · split at h
      · exact absurd h (by simp)
      · simp only [Except.ok.injEq, Prod.mk.injEq] at h
        exact h.2.symm

theorem create_conversation_ok (args : ToolArgs) (now : Nat) (db : DB) (d : ToolData) (db2 : DB)
    (h : MCPTaskManager.create_conversation args now db = .ok (d, db2)) :
    db2.tasks = db.tasks := by
  unfold MCPTaskManager.create_conversation at h
  simp only [Except.ok.injEq, Prod.mk.injEq] at h
  rw [← h.2]

theorem add_message_ok (args : ToolArgs) (now : Nat) (db : DB) (d : ToolData) (db2 : DB)
    (h : MCPTaskManager.add_message args now db = .ok (d, db2)) :
    db2.tasks = db.tasks := by
  unfold MCPTaskManager.add_message at h
  split at h
  · exact absurd h (by simp)
  · split at h
    · exact absurd h (by simp)
    · simp only [Except.ok.injEq, Prod.mk.injEq] at h
      rw [← h.2]

theorem get_conversation_ok (args : ToolArgs) (now : Nat) (db : DB) (d : ToolData) (db2 : DB)
    (h : MCPTaskManager.get_conversation args now db = .ok (d, db2)) : db2 = db := by
  unfold MCPTaskManager.get_conversation at h
  split at h
  · exact absurd h (by simp)
  · simp only [Except.ok.injEq, Prod.mk.injEq] at h
    exact h.2.symm

theorem runTool_none_iff (name : Str) (args : ToolArgs) (now : Nat) (db : DB) :
    MCPTaskManager.runTool name args now db = none
      ↔ name ∉ MCPTaskManager.availableToolNames := by
  unfold MCPTaskManager.runTool MCPTaskManager.availableToolNames
  split_ifs with h1 h2 h3 h4 h5 h6 h7 h8 <;> simp_all

/-! Claim C4: the three id-taking task executors on a missing id. -/

/-- C4: for every non-existent task id, `execute_tool` on `update_task`,
`get_task` or `delete_task` returns a typed ERROR result (the registry
catches the executor's `ValueError`; the embedding is total, so no
exception can escape), its message contains the id, and the state is
unchanged. -/
theorem C4_missing_id_error (args : ToolArgs) (now : Nat) (db : DB) (n : Nat)
    (hid : args.id = some n)
    (habs : db.tasks.find? (fun t => t.id == n) = none) :
    ∀ name ∈ [str "update_task", str "get_task", str "delete_task"],
      (MCPTaskManager.execute_tool name args now db).1.result = str "error" ∧
      (MCPTaskManager.execute_tool name args now db).1.message
        = str "Task with ID " ++ natToStr n ++ str " not found" ∧
      containsSub (MCPTaskManager.execute_tool name args now db).1.message (natToStr n) = true ∧
      (MCPTaskManager.execute_tool name args now db).2 = db := by
  have hget : dbGetTask db args.id = none := by rw [hid]; exact habs
  have hcon : containsSub (str "Task with ID " ++ natToStr n ++ str " not found") (natToStr n)
      = true := containsSub_sandwich _ _ _
  intro name hname
  simp only [List.mem_cons, List.not_mem_nil, or_false] at hname
  rcases hname with rfl | rfl | rfl
  · have he : MCPTaskManager.update_task args now db
        = .error (str "Task with ID " ++ natToStr n ++ str " not found") := by
      unfold MCPTaskManager.update_task
      rw [hget, hid]
      rfl
    rw [execute_tool_error_out _ args now db _ (by rw [runTool_update_task, he])]
    exact ⟨rfl, rfl, hcon, rfl⟩
  · have he : MCPTaskManager.get_task args now db
        = .error (str "Task with ID " ++ natToStr n ++ str " not found") := by
      unfold MCPTaskManager.get_task
      rw [hget, hid]
      rfl
    rw [execute_tool_error_out _ args now db _ (by rw [runTool_get_task, he])]
    exact ⟨rfl, rfl, hcon, rfl⟩
  · have he : MCPTaskManager.delete_task args now db
        = .error (str "Task with ID " ++ natToStr n ++ str " not found") := by
      unfold MCPTaskManager.delete_task
      rw [hget, hid]
      rfl
    rw [execute_tool_error_out _ args now db _ (by rw [runTool_delete_task, he])]
    exact ⟨rfl, rfl, hcon, rfl⟩

/-- C4 witness: `get_task` with id 7 on the empty database. -/
theorem C4_missing_id_error_witness :
    (MCPTaskManager.execute_tool (str "get_task") { id := some 7 } 0 dbEmpty).1.result
      = str "error" ∧
    (MCPTaskManager.execute_tool (str "get_task") { id := some 7 } 0 dbEmpty).1.message
      = str "Task with ID " ++ natToStr 7 ++ str " not found" ∧
    containsSub (MCPTaskManager.execute_tool (str "get_task") { id := some 7 } 0 dbEmpty).1.message
      (natToStr 7) = true ∧
    (MCPTaskManager.execute_tool (str "get_task") { id := some 7 } 0 dbEmpty).2 = dbEmpty := by
  exact C4_missing_id_error { id := some 7 } 0 dbEmpty 7 rfl rfl (str "get_task") (by decide)

/-! Claim C5: the registry's tri-state contract. -/

/-- C5: `execute_tool` is total (hence never raises) and returns NOT_FOUND
exactly when the name is not a registered tool, ERROR with the exception's
message when the named executor raises, and SUCCESS with a data payload
otherwise. -/
theorem C5_execute_tool_tristate (name : Str) (args : ToolArgs) (now : Nat) (db : DB) :
    ((MCPTaskManager.execute_tool name args now db).1.result = str "not_found"
      ↔ name ∉ MCPTaskManager.availableToolNames) ∧
    (MCPTaskManager.runTool name args now db = none →
      MCPTaskManager.execute_tool name args now db
        = ({ result := str "not_found"
             message := str "Tool '" ++ name ++ str "' not found"
             data := none }, db)) ∧
    (∀ e, MCPTaskManager.runTool name args now db = some (.error e) →
      MCPTaskManager.execute_tool name args now db
        = ({ result := str "error", message := e, data := none }, db)) ∧
    (∀ d db2, MCPTaskManager.runTool name args now db = some (.ok (d, db2)) →
      MCPTaskManager.execute_tool name args now db
        = ({ result := str "success", message := str "Tool executed successfully",
             data := some d }, db2)) := by
  refine ⟨?_, fun hr => execute_tool_none_out _ _ _ _ hr,
    fun e hr => execute_tool_error_out _ _ _ _ _ hr,
    fun d db2 hr => execute_tool_ok_out _ _ _ _ _ _ hr⟩
  cases hr : MCPTaskManager.runTool name args now db with
  | none =>
    rw [execute_tool_none_out _ _ _ _ hr]
    exact iff_of_true rfl ((runTool_none_iff name args now db).mp hr)
  | some ex =>
    have hmem : name ∈ MCPTaskManager.availableToolNames := by
      by_contra hm
      rw [(runTool_none_iff name args now db).mpr hm] at hr
      exact absurd hr (by simp)
    cases ex with
    | error e =>
      rw [execute_tool_error_out _ _ _ _ _ hr]
      have hne : ¬ (str "error" = str "not_found") := by decide
      exact iff_of_false hne (not_not_intro hmem)
    | ok pr =>
      obtain ⟨d, db2⟩ := pr
      rw [execute_tool_ok_out _ _ _ _ _ _ hr]
      have hne : ¬ (str "success" = str "not_found") := by decide
      exact iff_of_false hne (not_not_intro hmem)

/-- C5 witness: the unregistered name "bogus" yields NOT_FOUND with the
source's message and unchanged state. -/
theorem C5_execute_tool_tristate_witness :
    MCPTaskManager.execute_tool (str "bogus") {} 0 dbEmpty
      = ({ result := str "not_found", message := str "Tool 'bogus' not found",
           data := none }, dbEmpty) ∧
    (str "bogus") ∉ MCPTaskManager.availableToolNames := by
  have h := (C5_execute_tool_tristate (str "bogus") {} 0 dbEmpty).2.1 rfl
  have hm : str "Tool '" ++ str "bogus" ++ str "' not found" = str "Tool 'bogus' not found" := by
    decide
  rw [hm] at h
  exact ⟨h, by decide⟩

/-! Claim C8: create/get round-trip. -/

/-- C8: executing `create_task` and then `get_task` with the created task's
id returns the very same record (all fields — title, description, status,
priority, timestamps, conversation reference, id — equal), in the state the
create produced. -/
theorem C8_create_get_roundtrip (args : ToolArgs) (now now2 : Nat) (db db2 : DB)
    (t : Task) (msg : Str)
    (h : MCPTaskManager.execute_tool (str "create_task") args now db
        = ({ result := str "success", message := msg, data := some (.task t) }, db2)) :
    MCPTaskManager.execute_tool (str "get_task") { id := some t.id } now2 db2
      = ({ result := str "success", message := str "Tool executed successfully",
           data := some (.task t) }, db2) := by
  unfold MCPTaskManager.execute_tool at h
  rw [runTool_create_task] at h
  cases hc : MCPTaskManager.create_task args now db with
  | error e =>
    rw [hc] at h
    have hres : str "error" = str "success" := congrArg (fun p => p.1.result) h
    exact absurd hres (by decide)
  | ok pr =>
    obtain ⟨d, db2x⟩ := pr
    rw [hc] at h
    have hdata : (some d : Option ToolData) = some (.task t) :=
      congrArg (fun p => p.1.data) h
    have hdb : db2x = db2 := congrArg Prod.snd h
    obtain rfl : d = ToolData.task t := Option.some.inj hdata
    subst hdb
    obtain ⟨tsk, htd, hdb2, hid, _, _⟩ := create_task_ok args now db _ _ hc
    obtain rfl : t = tsk := ToolData.task.inj htd
    have hfind : dbGetTask db2x (some t.id) = some t := by
      rw [hdb2]
      show (db.tasks ++ [t]).find? (fun u => u.id == t.id) = some t
      apply find?_append_new
      intro u hu
      rw [hid]
      exact lt_nextId _ _ (List.mem_map_of_mem Task.id hu)
    have hget : MCPTaskManager.get_task { id := some t.id } now2 db2x = .ok (.task t, db2x) := by
      unfold MCPTaskManager.get_task
      rw [show ({ id := some t.id } : ToolArgs).id = some t.id from rfl, hfind]
    exact execute_tool_ok_out _ _ _ _ _ _ (by rw [runTool_get_task, hget])

/-- C8 witness: creating "demo" in the empty database and reading it back. -/
theorem C8_create_get_roundtrip_witness :
    MCPTaskManager.execute_tool (str "get_task")
        { id := some 1 } 5
        { tasks := [{ id := 1, title := some (str "demo"), description := some []
                      status := .pending, priority := .medium, created_at := 0, updated_at := 0
                      conversation_id := none }]
          conversations := [], messages := [] }
      = ({ result := str "success", message := str "Tool executed successfully",
           data := some (.task { id := 1, title := some (str "demo"), description := some []
                                 status := .pending, priority := .medium
                                 created_at := 0, updated_at := 0, conversation_id := none }) },
         { tasks := [{ id := 1, title := some (str "demo"), description := some []
                       status := .pending, priority := .medium, created_at := 0, updated_at := 0
                       conversation_id := none }]
           conversations := [], messages := [] }) := by
  exact C8_create_get_roundtrip { title := some (str "demo") } 0 5 dbEmpty _ _ _ rfl

/-! Claim C9: `update_task` overwrites only the fields present in the
arguments. -/

/-- C9: on a successful `update_task` of the stored task `u`, every field
named in the arguments is overwritten with the argument's value (status and
priority through their enum constructors) and every other field — id,
created_at, updated_at included — keeps its previous value; the rest of the
table is the original list with that one task replaced. -/
theorem C9_update_frame (args : ToolArgs) (now : Nat) (db db2 : DB) (n : Nat) (u u2 : Task)
    (hid : args.id = some n)
    (hfind : db.tasks.find? (fun t => t.id == n) = some u)
    (h : MCPTaskManager.update_task args now db = .ok (.task u2, db2)) :
    u2.id = u.id ∧ u2.created_at = u.created_at ∧ u2.updated_at = u.updated_at ∧
    (args.title = none → u2.title = u.title) ∧
    (∀ s, args.title = some s → u2.title = some s) ∧
    (args.description = none → u2.description = u.description) ∧
    (∀ s, args.description = some s → u2.description = some s) ∧
    (args.status = none → u2.status = u.status) ∧
    (∀ s, args.status = some s → TaskStatus.ofValue s = .ok u2.status) ∧
    (args.priority = none → u2.priority = u.priority) ∧
    (∀ s, args.priority = some s → PriorityLevel.ofValue s = .ok u2.priority) ∧
    (args.conversation_id = none → u2.conversation_id = u.conversation_id) ∧
    (∀ m, args.conversation_id = some m → u2.conversation_id = some m) ∧
    db2 = { db with tasks := replaceFirstTask db.tasks u.id u2 } := by
  obtain ⟨task, task2, heq, htd, hdb2, hid2, hca, hua, htitle, hdesc, hst, hpr, hconv⟩ :=
    update_task_ok args now db _ _ h
  obtain rfl : task2 = u2 := (ToolData.task.inj htd).symm
  have hu : task = u := by
    rw [hid] at heq
    have heq2 : db.tasks.find? (fun t => t.id == n) = some task := heq
    rw [hfind] at heq2
    exact (Option.some.inj heq2).symm
  subst hu
  refine ⟨hid2, hca, hua, ?_, ?_, ?_, ?_, ?_, ?_, ?_, ?_, ?_, ?_, hdb2⟩
  · intro ht; rw [ht] at htitle; exact htitle
  · intro s ht; rw [ht] at htitle; exact htitle
  · intro ht; rw [ht] at hdesc; exact hdesc
  · intro s ht; rw [ht] at hdesc; exact hdesc
  · intro ht; rw [ht] at hst; exact (Except.ok.inj hst).symm
  · intro s ht; rw [ht] at hst; exact hst
  · intro ht; rw [ht] at hpr; exact (Except.ok.inj hpr).symm
  · intro s ht; rw [ht] at hpr; exact hpr
  · intro ht; rw [ht] at hconv; exact hconv
  · intro m ht; rw [ht] at hconv; exact hconv

/-- C9 witness: updating only the status of the stored task keeps id,
title, description, priority, conversation reference and both timestamps. -/
theorem C9_update_frame_witness :
    MCPTaskManager.update_task { id := some 1, status := some (str "completed") } 9 dbW
      = .ok (.task { taskW with status := .completed },
             { dbW with tasks := [{ taskW with status := .completed }] }) ∧
    ({ taskW with status := .completed } : Task).updated_at = taskW.updated_at ∧
    ({ taskW with status := .completed } : Task).title = taskW.title := by
  refine ⟨by decide, ?_, ?_⟩
  · exact (C9_update_frame { id := some 1, status := some (str "completed") } 9 dbW
      { dbW with tasks := [{ taskW with status := .completed }] } 1 taskW
      { taskW with status := .completed } rfl (by decide) (by decide)).2.2.1
  · exact (C9_update_frame { id := some 1, status := some (str "completed") } 9 dbW
      { dbW with tasks := [{ taskW with status := .completed }] } 1 taskW
      { taskW with status := .completed } rfl (by decide) (by decide)).2.2.2.1 rfl

/-! Claim C10: no executor ever touches `updated_at` after a task is
created (the model has no `onupdate` hook and `_update_task` never assigns
it). -/

/-- C10: after any `execute_tool` call, every task in the resulting state
either keeps the `updated_at` (and `created_at`) of a task of the same id
that was already stored, or is the freshly created task, whose `updated_at`
and `created_at` are both the creation instant.  In particular a
successful `update_task` changes fields but never `updated_at`. -/
theorem C10_updated_at_invariant (name : Str) (args : ToolArgs) (now : Nat) (db : DB) (u2 : Task)
    (hmem : u2 ∈ ((MCPTaskManager.execute_tool name args now db).2).tasks) :
    (∃ u ∈ db.tasks, u.id = u2.id ∧ u2.updated_at = u.updated_at ∧ u2.created_at = u.created_at) ∨
    (u2.updated_at = now ∧ u2.created_at = now) := by
  cases hr : MCPTaskManager.runTool name args now db with
  | none =>
    rw [execute_tool_none_out _ _ _ _ hr] at hmem
    exact Or.inl ⟨u2, hmem, rfl, rfl, rfl⟩
  | some ex =>
    cases ex with
    | error e =>
      rw [execute_tool_error_out _ _ _ _ _ hr] at hmem
      exact Or.inl ⟨u2, hmem, rfl, rfl, rfl⟩
    | ok pr =>
      obtain ⟨d, db2⟩ := pr
      rw [execute_tool_ok_out _ _ _ _ _ _ hr] at hmem
      by_cases h1 : name = str "create_task"
      · subst h1
        rw [runTool_create_task] at hr
        obtain ⟨tsk, _, hdb2, _, hca, hua⟩ :=
          create_task_ok args now db _ _ (Option.some.inj hr)
        rw [hdb2] at hmem
        rcases List.mem_append.mp hmem with hm | hm
        · exact Or.inl ⟨u2, hm, rfl, rfl, rfl⟩
        · obtain rfl : u2 = tsk := List.mem_singleton.mp hm
          exact Or.inr ⟨hua, hca⟩
      by_cases h2 : name = str "update_task"
      · subst h2
        rw [runTool_update_task] at hr
        obtain ⟨task, task2, heq, _, hdb2, hid2, hca, hua, _, _, _, _, _⟩ :=
          update_task_ok args now db _ _ (Option.some.inj hr)
        have htm : task ∈ db.tasks := by
          cases hai : args.id with
          | none => rw [hai] at heq; exact absurd heq (by simp [dbGetTask])
          | some k =>
            rw [hai] at heq
            exact List.mem_of_find?_eq_some heq
        rw [hdb2] at hmem
        rcases mem_replaceFirstTask _ _ _ _ hmem with hm | hm
        · exact Or.inl ⟨u2, hm, rfl, rfl, rfl⟩
        · subst hm
          exact Or.inl ⟨task, htm, hid2.symm, hua, hca⟩
      by_cases h3 : name = str "delete_task"
      · subst h3
        rw [runTool_delete_task] at hr
        obtain ⟨task, _, _, hdb2⟩ := delete_task_ok args now db _ _ (Option.some.inj hr)
        rw [hdb2] at hmem
        exact Or.inl ⟨u2, mem_removeFirstTask _ _ _ hmem, rfl, rfl, rfl⟩
      by_cases h4 : name = str "get_task"
      · subst h4
        rw [runTool_get_task] at hr
        rw [get_task_ok args now db _ _ (Option.some.inj hr)] at hmem
        exact Or.inl ⟨u2, hmem, rfl, rfl, rfl⟩
      by_cases h5 : name = str "list_tasks"
      · subst h5
        rw [runTool_list_tasks] at hr
        rw [list_tasks_ok args now db _ _ (Option.some.inj hr)] at hmem
        exact Or.inl ⟨u2, hmem, rfl, rfl, rfl⟩
      by_cases h6 : name = str "create_conversation"
      · subst h6
        rw [runTool_create_conversation] at hr
        rw [create_conversation_ok args now db _ _ (Option.some.inj hr)] at hmem
        exact Or.inl ⟨u2, hmem, rfl, rfl, rfl⟩
      by_cases h7 : name = str "add_message"
      · subst h7
        rw [runTool_add_message] at hr
        rw [add_message_ok args now db _ _ (Option.some.inj hr)] at hmem
        exact Or.inl ⟨u2, hmem, rfl, rfl, rfl⟩
      by_cases h8 : name = str "get_conversation"
      · subst h8
        rw [runTool_get_conversation] at hr
        rw [get_conversation_ok args now db _ _ (Option.some.inj hr)] at hmem
        exact Or.inl ⟨u2, hmem, rfl, rfl, rfl⟩
      exfalso
      have hnm : name ∉ MCPTaskManager.availableToolNames := by
        simp only [MCPTaskManager.availableToolNames, List.mem_cons, List.not_mem_nil, or_false]
        push_neg
        exact ⟨h1, h2, h3, h4, h5, h6, h7, h8⟩
      rw [(runTool_none_iff name args now db).mpr hnm] at hr
      exact absurd hr (by simp)

/-- C10 witness: a successful status update of the stored task leaves its
`updated_at`/`created_at` tied to the previously stored task of the same
id. -/
theorem C10_updated_at_invariant_witness :
    (∃ u ∈ dbW.tasks, u.id = ({ taskW with status := TaskStatus.completed } : Task).id ∧
      ({ taskW with status := TaskStatus.completed } : Task).updated_at = u.updated_at ∧
      ({ taskW with status := TaskStatus.completed } : Task).created_at = u.created_at) ∨
    (({ taskW with status := TaskStatus.completed } : Task).updated_at = 9 ∧
      ({ taskW with status := TaskStatus.completed } : Task).created_at = 9) := by
  exact C10_updated_at_invariant (str "update_task")
    { id := some 1, status := some (str "completed") } 9 dbW
    { taskW with status := TaskStatus.completed } (by decide)

end Agent
